import Mathlib

/-!
# Verification of the CAD_Sketcher rendering and entity layer

A shallow embedding of the thick-line tessellation module
(`src/utilities/draw.py`), the entity base class
(`src/model/base_entity.py`) and the workplane entity
(`src/model/workplane.py`) of the CAD_Sketcher repository, together with
theorems settling the frozen claims about them.

Embedding conventions:

* Python floats and `mathutils.Vector` components are modelled by real
  numbers (`ℝ`); all arithmetic is exact.
* `mathutils.Vector.normalized()` returns the zero vector on a
  zero-length input and divides by the length otherwise.
* The `while` loop of `ThickRenderer._render_dashed_line` is embedded as
  a fuel-indexed recursion returning `Option`: `none` models a call that
  has not returned within `fuel` iterations (the Python loop has no fuel
  bound, so nontermination shows up as `none` for every fuel).
* A raised exception is modelled by `Except.error`.
-/

/-- A 3-component vector, modelling `mathutils.Vector` with real
components. -/
structure Vec3 where
  x : ℝ
  y : ℝ
  z : ℝ

namespace Vec3

def zero : Vec3 := ⟨0, 0, 0⟩

def add (a b : Vec3) : Vec3 := ⟨a.x + b.x, a.y + b.y, a.z + b.z⟩

def sub (a b : Vec3) : Vec3 := ⟨a.x - b.x, a.y - b.y, a.z - b.z⟩

/-- Scalar product `v * c` in mathutils (vector times scalar, componentwise). -/
def smul (v : Vec3) (c : ℝ) : Vec3 := ⟨v.x * c, v.y * c, v.z * c⟩

def dot (a b : Vec3) : ℝ := a.x * b.x + a.y * b.y + a.z * b.z

/-- Python's `Vector.cross`, the usual 3D cross product. -/
def cross (a b : Vec3) : Vec3 :=
  ⟨a.y * b.z - a.z * b.y, a.z * b.x - a.x * b.z, a.x * b.y - a.y * b.x⟩

/-- Python's `Vector.length`, the Euclidean norm. -/
noncomputable def length (v : Vec3) : ℝ := Real.sqrt (v.x ^ 2 + v.y ^ 2 + v.z ^ 2)

/-- Python's `Vector.normalized()`: the zero vector stays the zero vector, any
other vector is divided by its length. -/
noncomputable def normalized (v : Vec3) : Vec3 :=
  if v.length = 0 then v else v.smul (1 / v.length)

end Vec3

/- `RenderingConfig` from `src/utilities/draw.py` (decimal constants
written as exact rationals). -/
namespace RenderingConfig

noncomputable def THICK_LINE_SCALE : ℝ := 5 / 1000

noncomputable def THICK_POINT_SCALE : ℝ := 4 / 1000

noncomputable def WORKPLANE_LINE_SCALE : ℝ := 2 / 10000

noncomputable def MIN_SEGMENT_LENGTH : ℝ := 1 / 1000000

noncomputable def DEFAULT_DASH_LENGTH : ℝ := 1 / 10

noncomputable def DEFAULT_GAP_LENGTH : ℝ := 1 / 20

end RenderingConfig

/-- Enum `RenderMode` from `src/utilities/draw.py`. -/
inductive RenderMode where
  | solid
  | dashed
deriving DecidableEq

/-- A triangle index triple. -/
abbrev Tri := ℕ × ℕ × ℕ

namespace ThickRenderer

/-- Embeds `ThickRenderer._calculate_perpendicular_offset`. -/
noncomputable def calculate_perpendicular_offset (direction : Vec3) (width : ℝ)
    (scale_factor : ℝ := RenderingConfig.THICK_LINE_SCALE) : Vec3 :=
  if direction.length < RenderingConfig.MIN_SEGMENT_LENGTH then
    Vec3.zero
  else if |direction.z| < 9 / 10 then
    ((direction.cross ⟨0, 0, 1⟩).normalized).smul (width * scale_factor)
  else
    ((direction.cross ⟨1, 0, 0⟩).normalized).smul (width * scale_factor)

/-- Embeds `ThickRenderer._create_quad_geometry`. -/
def create_quad_geometry (start endp offset : Vec3) : List Vec3 × List Tri :=
  ([start.sub offset, start.add offset, endp.add offset, endp.sub offset],
   [(0, 1, 2), (0, 2, 3)])

/-- Embeds `ThickRenderer.render_point`. -/
noncomputable def render_point (center : Vec3) (size : ℝ) : List Vec3 × List Tri :=
  let half_size := size * RenderingConfig.THICK_POINT_SCALE
  ([⟨center.x - half_size, center.y - half_size, center.z⟩,
    ⟨center.x + half_size, center.y - half_size, center.z⟩,
    ⟨center.x + half_size, center.y + half_size, center.z⟩,
    ⟨center.x - half_size, center.y + half_size, center.z⟩],
   [(0, 1, 2), (0, 2, 3)])

/-- Embeds `ThickRenderer._render_solid_line`. -/
noncomputable def render_solid_line (start endp : Vec3) (width : ℝ) :
    List Vec3 × List Tri :=
  let direction_normalized := (endp.sub start).normalized
  let offset := calculate_perpendicular_offset direction_normalized width
  create_quad_geometry start endp offset

/-- The index shift `(idx[0] + base, idx[1] + base, idx[2] + base)`
applied to adjusted indices in `_render_dashed_line` and
`render_line_strip`. -/
def shift_tri (base : ℕ) (t : Tri) : Tri :=
  (t.1 + base, t.2.1 + base, t.2.2 + base)

/-- The `while current_pos < total_length` loop of
`ThickRenderer._render_dashed_line`, as a fuel-indexed recursion.
`none` models a call that has not returned within `fuel` iterations. -/
noncomputable def dashed_loop (start dirn offset : Vec3)
    (dash_length pattern_length total_length : ℝ) :
    ℕ → ℝ → List Vec3 → List Tri → Option (List Vec3 × List Tri)
  | 0, current_pos, coords, indices =>
      if current_pos < total_length then none else some (coords, indices)
  | fuel + 1, current_pos, coords, indices =>
      if current_pos < total_length then
        let dash_end := min (current_pos + dash_length) total_length
        if dash_end > current_pos then
          let start_pos := start.add (dirn.smul current_pos)
          let end_pos := start.add (dirn.smul dash_end)
          let base_idx := coords.length
          let quad := create_quad_geometry start_pos end_pos offset
          dashed_loop start dirn offset dash_length pattern_length total_length
            fuel (current_pos + pattern_length) (coords ++ quad.1)
            (indices ++ quad.2.map (shift_tri base_idx))
        else
          dashed_loop start dirn offset dash_length pattern_length total_length
            fuel (current_pos + pattern_length) coords indices
      else some (coords, indices)

/-- Embeds `ThickRenderer._render_dashed_line`. -/
noncomputable def render_dashed_line (fuel : ℕ) (start endp : Vec3)
    (width dash_length gap_length : ℝ) : Option (List Vec3 × List Tri) :=
  let direction := endp.sub start
  let total_length := direction.length
  let direction_normalized := direction.normalized
  let offset := calculate_perpendicular_offset direction_normalized width
  dashed_loop start direction_normalized offset dash_length
    (dash_length + gap_length) total_length fuel 0 [] []

/-- Embeds `ThickRenderer.render_line`. -/
noncomputable def render_line (fuel : ℕ) (start endp : Vec3) (width : ℝ)
    (mode : RenderMode := RenderMode.solid)
    (dash_length : ℝ := RenderingConfig.DEFAULT_DASH_LENGTH)
    (gap_length : ℝ := RenderingConfig.DEFAULT_GAP_LENGTH) :
    Option (List Vec3 × List Tri) :=
  let direction := endp.sub start
  if direction.length < RenderingConfig.MIN_SEGMENT_LENGTH then
    some ([], [])
  else if mode = RenderMode.solid then
    some (render_solid_line start endp width)
  else
    render_dashed_line fuel start endp width dash_length gap_length

/-- The `for i in range(len(points) - 1)` loop of
`ThickRenderer.render_line_strip`, walking adjacent pairs and
accumulating coordinates and shifted indices. -/
noncomputable def strip_loop (fuel : ℕ) (width : ℝ) (mode : RenderMode)
    (dash_length gap_length : ℝ) :
    Vec3 → List Vec3 → List Vec3 → List Tri → Option (List Vec3 × List Tri)
  | _, [], all_coords, all_indices => some (all_coords, all_indices)
  | prev, q :: rest, all_coords, all_indices =>
      match render_line fuel prev q width mode dash_length gap_length with
      | none => none
      | some (segment_coords, segment_indices) =>
          if segment_coords.isEmpty then
            strip_loop fuel width mode dash_length gap_length q rest
              all_coords all_indices
          else
            strip_loop fuel width mode dash_length gap_length q rest
              (all_coords ++ segment_coords)
              (all_indices ++ segment_indices.map (shift_tri all_coords.length))

/-- Embeds `ThickRenderer.render_line_strip`. -/
noncomputable def render_line_strip (fuel : ℕ) (coords : List Vec3) (width : ℝ)
    (mode : RenderMode := RenderMode.solid)
    (dash_length : ℝ := RenderingConfig.DEFAULT_DASH_LENGTH)
    (gap_length : ℝ := RenderingConfig.DEFAULT_GAP_LENGTH) :
    Option (List Vec3 × List Tri) :=
  if coords.length < 2 then some (coords, [])
  else
    match coords with
    | [] => some ([], [])
    | p :: rest => strip_loop fuel width mode dash_length gap_length p rest [] []

end ThickRenderer

/-! ## Spec-side description of the dashed output

The following definitions restate, in the words of the dashed-line
claim, what the output of `_render_dashed_line` is supposed to be: the
k-th dash starts at parameter `k * (dash_length + gap_length)`, ends at
`min` of that plus `dash_length` and the total length, a dash exists
exactly while its start parameter is strictly below the total length
(equivalently, `k < ⌈total / pattern⌉`), each dash contributes the 4
quad coordinates and 2 triangles with indices shifted by `4 * k`. -/

/-- Number of dashes predicted by the claim: the number of `k : ℕ` with
`k * pattern_length < total_length` (for a positive pattern length this
is `⌈total_length / pattern_length⌉`). -/
noncomputable def n_dashes (total_length pattern_length : ℝ) : ℕ :=
  Nat.ceil (total_length / pattern_length)

/-- The dashed-line coordinates as the claim describes them. -/
noncomputable def claimed_dash_coords (start endp : Vec3)
    (width dash_length gap_length : ℝ) : List Vec3 :=
  let direction := endp.sub start
  let total_length := direction.length
  let dirn := direction.normalized
  let offset := ThickRenderer.calculate_perpendicular_offset dirn width
  let pattern := dash_length + gap_length
  (List.range (n_dashes total_length pattern)).flatMap fun k =>
    (ThickRenderer.create_quad_geometry
      (start.add (dirn.smul (k * pattern)))
      (start.add (dirn.smul (min (k * pattern + dash_length) total_length)))
      offset).1

/-- The dashed-line triangle indices as the claim describes them: the
k-th dash's two triangles, shifted by `4 * k`. -/
def claimed_dash_tris (n : ℕ) : List Tri :=
  (List.range n).flatMap fun k =>
    [(4 * k, 4 * k + 1, 4 * k + 2), (4 * k, 4 * k + 2, 4 * k + 3)]

/-! ## Entity layer (`src/model/base_entity.py`, `src/model/workplane.py`) -/

/-- The theme colors `prefs.theme_settings.entity.*` that
`SlvsGenericEntity.color` can return. -/
inductive ThemeColor where
  | highlight
  | inactive_selected
  | inactive
  | selected_highlight
  | selected
  | fixed
  | default
deriving DecidableEq

/-- Embeds `SlvsGenericEntity.color`, as a function of the five booleans the
method branches on: `active` (`is_active` of the active sketch),
`highlight` (`is_highlight()`), `selected`, `fixed` and `origin`.
The body mirrors the `if not active / elif self.selected / elif
highlight / if fixed and not origin` chain of the source (the final
`if` is only reached when active, not selected and not highlighted,
because the earlier branches return). -/
def SlvsGenericEntity.color (active highlight selected fixed origin : Bool) :
    ThemeColor :=
  if !active then
    if highlight then ThemeColor.highlight
    else if selected then ThemeColor.inactive_selected
    else ThemeColor.inactive
  else if selected then
    if highlight then ThemeColor.selected_highlight
    else ThemeColor.selected
  else if highlight then ThemeColor.highlight
  else if fixed && !origin then ThemeColor.fixed
  else ThemeColor.default

/-- The color decision order exactly as the claim words it: the claim's
cases read as an ordered decision list, first match wins. -/
def color_claim_order (active highlight selected fixed origin : Bool) :
    ThemeColor :=
  if !active then
    if highlight then ThemeColor.highlight
    else if selected then ThemeColor.inactive_selected
    else ThemeColor.inactive
  else if selected && highlight then ThemeColor.selected_highlight
  else if selected then ThemeColor.selected
  else if highlight then ThemeColor.highlight
  else if fixed && !origin then ThemeColor.fixed
  else ThemeColor.default

/-- The state of an entity that `SlvsGenericEntity.is_visible` reads:
its `origin` and `visible` flags, and — when the entity has a `sketch`
attribute — the result of the sketch's own `is_visible(context)`
(`none` models an entity without a `sketch` attribute). -/
structure EntityVisState where
  origin : Bool
  visible : Bool
  sketch : Option Bool

/-- Embeds `SlvsGenericEntity.is_visible`; `show_origin` is
`context.scene.sketcher.show_origin`. -/
def SlvsGenericEntity.is_visible (e : EntityVisState) (show_origin : Bool) :
    Bool :=
  if e.origin then show_origin
  else
    match e.sketch with
    | some sketch_visible => sketch_visible && e.visible
    | none => e.visible

/-- A handle returned by the solver backend. -/
abbrev Handle := ℕ

/-- The global entities table `global_data.entities`, keyed by
`slvs_index` (modelled as a total map). -/
abbrev EntitiesTable := ℤ → Handle

/-- The solver system object passed to `create_slvs_data`; only its
`addWorkplane` method is used by the code under verification. -/
structure SolveSys where
  addWorkplane : Handle → Handle → ℕ → Handle

/-- Modelled from the spec: the `Solver` class of the solver module is
not part of the excerpt; the spec only states that workplane creation
defaults its group argument to `Solver.group_fixed`. The constant is
modelled as an abstract group tag with an arbitrary fixed value. -/
def Solver.group_fixed : ℕ := 1

/-- The error raised by the base-class `create_slvs_data`. -/
inductive SlvsError where
  | notImplementedError
deriving DecidableEq

/-- The base-class `SlvsGenericEntity.create_slvs_data`, which raises
`NotImplementedError` on every input. -/
def SlvsGenericEntity.create_slvs_data (_solvesys : SolveSys)
    (_entities : EntitiesTable) : Except SlvsError EntitiesTable :=
  Except.error SlvsError.notImplementedError

/-- The base-class `SlvsGenericEntity.update_from_slvs`, whose body is
`pass`: in state-passing form it returns the state unchanged. -/
def SlvsGenericEntity.update_from_slvs (_solvesys : SolveSys)
    (entities : EntitiesTable) : EntitiesTable :=
  entities

/-- An `SlvsWorkplane` as far as `create_slvs_data` reads it: its own
global index and the global indices of its origin point `p1` and normal
`nm` (through which `p1.py_data` and `nm.py_data` are looked up in the
global entities table). -/
structure SlvsWorkplane where
  slvs_index : ℤ
  p1_index : ℤ
  nm_index : ℤ

/-- Embeds `SlvsWorkplane.create_slvs_data`: with `group` defaulting to
`Solver.group_fixed`, stores the handle returned by
`solvesys.addWorkplane(p1.py_data, nm.py_data, group)` into the global
entities table at the workplane's `slvs_index` (the `py_data` setter). -/
def SlvsWorkplane.create_slvs_data (w : SlvsWorkplane) (solvesys : SolveSys)
    (entities : EntitiesTable) (group : ℕ := Solver.group_fixed) :
    EntitiesTable :=
  let handle := solvesys.addWorkplane (entities w.p1_index) (entities w.nm_index)
    group
  fun i => if i = w.slvs_index then handle else entities i

/-! ## Helper lemmas about `Vec3` -/

namespace Vec3

lemma length_nonneg (v : Vec3) : 0 ≤ v.length := Real.sqrt_nonneg _

lemma length_eq_zero_iff (v : Vec3) : v.length = 0 ↔ v = zero := by
  constructor
  · intro h
    have h' : v.x ^ 2 + v.y ^ 2 + v.z ^ 2 ≤ 0 := by
      rwa [length, Real.sqrt_eq_zero'] at h
    have hx : v.x = 0 := by nlinarith [sq_nonneg v.x, sq_nonneg v.y, sq_nonneg v.z]
    have hy : v.y = 0 := by nlinarith [sq_nonneg v.x, sq_nonneg v.y, sq_nonneg v.z]
    have hz : v.z = 0 := by nlinarith [sq_nonneg v.x, sq_nonneg v.y, sq_nonneg v.z]
    cases v
    simp_all [zero]
  · intro h
    subst h
    norm_num [length, zero]

lemma length_smul (v : Vec3) (c : ℝ) : (v.smul c).length = |c| * v.length := by
  unfold smul length
  simp only
  rw [show (v.x * c) ^ 2 + (v.y * c) ^ 2 + (v.z * c) ^ 2
        = c ^ 2 * (v.x ^ 2 + v.y ^ 2 + v.z ^ 2) by ring,
      Real.sqrt_mul (sq_nonneg c), Real.sqrt_sq_eq_abs]

lemma length_zero : (zero : Vec3).length = 0 := by
  norm_num [length, zero]

lemma length_pos_of_ne (v : Vec3) (h : v ≠ zero) : 0 < v.length :=
  lt_of_le_of_ne (length_nonneg v)
    (fun h0 => h ((length_eq_zero_iff v).mp h0.symm))

lemma length_normalized (v : Vec3) (h : v ≠ zero) : v.normalized.length = 1 := by
  have hL : v.length ≠ 0 := ne_of_gt (length_pos_of_ne v h)
  rw [normalized, if_neg hL, length_smul,
      abs_of_pos (one_div_pos.mpr (length_pos_of_ne v h)),
      one_div_mul_cancel hL]

lemma dot_smul_left (v : Vec3) (c : ℝ) (w : Vec3) :
    (v.smul c).dot w = c * v.dot w := by
  unfold smul dot
  ring

lemma dot_cross_left (a b : Vec3) : (a.cross b).dot a = 0 := by
  unfold cross dot
  ring

lemma dot_normalized_left (v w : Vec3) (h : v.dot w = 0) :
    v.normalized.dot w = 0 := by
  unfold normalized
  split
  · exact h
  · rw [dot_smul_left, h, mul_zero]

lemma zero_dot (w : Vec3) : (zero : Vec3).dot w = 0 := by
  norm_num [zero, dot]

lemma add_smul_zero (s d : Vec3) : s.add (d.smul 0) = s := by
  cases s
  cases d
  simp [add, smul]

lemma normalized_smul_length (v : Vec3) (h : v ≠ zero) :
    v.normalized.smul v.length = v := by
  have hL : v.length ≠ 0 := ne_of_gt (length_pos_of_ne v h)
  rw [normalized, if_neg hL]
  cases v
  simp only [smul, mk.injEq]
  refine ⟨?_, ?_, ?_⟩ <;> field_simp

end Vec3

/-! ## Helper lemmas about the dashed-line loop -/

namespace ThickRenderer

lemma dashed_loop_exit (start dirn offset : Vec3)
    (dash pattern total current : ℝ) (h : ¬ current < total) :
    ∀ (fuel : ℕ) (coords : List Vec3) (indices : List Tri),
      dashed_loop start dirn offset dash pattern total fuel current
          coords indices = some (coords, indices) := by
  intro fuel coords indices
  cases fuel <;> simp [dashed_loop, h]

lemma n_dashes_lt_iff (total pattern : ℝ) (hpat : 0 < pattern) (k : ℕ) :
    k < n_dashes total pattern ↔ (k : ℝ) * pattern < total := by
  rw [n_dashes, Nat.lt_ceil, lt_div_iff₀ hpat]

/-- Invariant proof for the dashed-line loop: starting at position
`k * pattern` with `4 * k` accumulated coordinates, and enough fuel for
the remaining iterations, the loop returns the accumulators extended
with one quad (and its two `4 * j`-shifted triangles) for every
remaining dash index `j`. -/
lemma dashed_loop_spec (start dirn offset : Vec3) (dash pattern total : ℝ)
    (hd : 0 < dash) (hdp : dash ≤ pattern) :
    ∀ (fuel k : ℕ) (coords : List Vec3) (indices : List Tri),
      n_dashes total pattern ≤ k + fuel →
      coords.length = 4 * k →
      dashed_loop start dirn offset dash pattern total fuel
          ((k : ℝ) * pattern) coords indices =
        some
          (coords ++ (List.range' k (n_dashes total pattern - k)).flatMap
            (fun j => (create_quad_geometry
              (start.add (dirn.smul ((j : ℝ) * pattern)))
              (start.add (dirn.smul (min ((j : ℝ) * pattern + dash) total)))
              offset).1),
           indices ++ (List.range' k (n_dashes total pattern - k)).flatMap
            (fun j => [(4 * j, 4 * j + 1, 4 * j + 2),
                       (4 * j, 4 * j + 2, 4 * j + 3)])) := by
  have hpat : 0 < pattern := lt_of_lt_of_le hd hdp
  intro fuel
  induction fuel with
  | zero =>
    intro k coords indices hn hlen
    have hnk : n_dashes total pattern ≤ k := by omega
    have hguard : ¬ ((k : ℝ) * pattern < total) := fun hlt => by
      have := (n_dashes_lt_iff total pattern hpat k).mpr hlt
      omega
    rw [show n_dashes total pattern - k = 0 by omega]
    simp [dashed_loop, hguard]
  | succ fuel ih =>
    intro k coords indices hn hlen
    by_cases hk : k < n_dashes total pattern
    · have hguard : (k : ℝ) * pattern < total :=
        (n_dashes_lt_iff total pattern hpat k).mp hk
      have hde : min ((k : ℝ) * pattern + dash) total > (k : ℝ) * pattern :=
        lt_min (by linarith) hguard
      have hpos : (k : ℝ) * pattern + pattern = ((k + 1 : ℕ) : ℝ) * pattern := by
        push_cast
        ring
      have hsh : (create_quad_geometry
            (start.add (dirn.smul ((k : ℝ) * pattern)))
            (start.add (dirn.smul (min ((k : ℝ) * pattern + dash) total)))
            offset).2.map (shift_tri coords.length)
          = [(4 * k, 4 * k + 1, 4 * k + 2), (4 * k, 4 * k + 2, 4 * k + 3)] := by
        rw [hlen]
        simp only [create_quad_geometry, List.map_cons, List.map_nil,
          shift_tri, List.cons.injEq, Prod.mk.injEq, and_true]
        omega
      rw [dashed_loop, if_pos hguard]
      simp only [if_pos hde]
      rw [hpos, ih (k + 1) _ _ (by omega)
            (by simp [create_quad_geometry, hlen]; omega),
          hsh,
          show n_dashes total pattern - k = (n_dashes total pattern - (k + 1)) + 1
            by omega]
      simp only [List.range'_succ, List.flatMap_cons, List.append_assoc]
    · have hguard : ¬ ((k : ℝ) * pattern < total) := fun hlt => by
        have := (n_dashes_lt_iff total pattern hpat k).mpr hlt
        omega
      rw [show n_dashes total pattern - k = 0 by omega]
      simp [dashed_loop, hguard]

end ThickRenderer

/-- A triangle triple is valid for a vertex list of length `n` when all
three of its components are strictly below `n`. -/
def tri_valid (n : ℕ) (t : Tri) : Prop :=
  t.1 < n ∧ t.2.1 < n ∧ t.2.2 < n

lemma tri_valid_mono {n m : ℕ} (h : n ≤ m) {t : Tri}
    (ht : tri_valid n t) : tri_valid m t := by
  obtain ⟨h1, h2, h3⟩ := ht
  exact ⟨by omega, by omega, by omega⟩

namespace ThickRenderer

/-- Invariant: the dashed-line loop only ever appends triangles whose
indices are valid for the coordinate list it appends alongside them. -/
lemma dashed_loop_valid (start dirn offset : Vec3) (dash pattern total : ℝ) :
    ∀ (fuel : ℕ) (pos : ℝ) (coords : List Vec3) (indices : List Tri)
      (out : List Vec3 × List Tri),
      (∀ t ∈ indices, tri_valid coords.length t) →
      dashed_loop start dirn offset dash pattern total fuel pos coords indices
        = some out →
      ∀ t ∈ out.2, tri_valid out.1.length t := by
  intro fuel
  induction fuel with
  | zero =>
    intro pos coords indices out hinv heq
    rw [dashed_loop] at heq
    by_cases h : pos < total
    · simp [h] at heq
    · simp [h] at heq
      subst heq
      exact hinv
  | succ fuel ih =>
    intro pos coords indices out hinv heq
    rw [dashed_loop] at heq
    by_cases h : pos < total
    · rw [if_pos h] at heq
      by_cases hde : min (pos + dash) total > pos
      · simp only [if_pos hde] at heq
        refine ih _ _ _ _ ?_ heq
        intro t ht
        rw [List.mem_append] at ht
        rcases ht with ht | ht
        · refine tri_valid_mono ?_ (hinv t ht)
          simp [create_quad_geometry]
        · simp only [create_quad_geometry, List.map_cons, List.map_nil,
            shift_tri, List.mem_cons, List.not_mem_nil, or_false] at ht
          rcases ht with rfl | rfl <;>
            simp [tri_valid, create_quad_geometry] <;> omega
      · simp only [if_neg hde] at heq
        exact ih _ _ _ _ hinv heq
    · rw [if_neg h] at heq
      cases heq
      exact hinv

/-- Index validity for `_render_dashed_line` outputs. -/
lemma render_dashed_line_valid (fuel : ℕ) (start endp : Vec3)
    (width dash_length gap_length : ℝ) (out : List Vec3 × List Tri)
    (heq : render_dashed_line fuel start endp width dash_length gap_length
      = some out) :
    ∀ t ∈ out.2, tri_valid out.1.length t := by
  refine dashed_loop_valid _ _ _ _ _ _ fuel 0 [] [] out ?_ heq
  intro t ht
  simp at ht

/-- Index validity for `render_line` outputs. -/
lemma render_line_valid (fuel : ℕ) (start endp : Vec3) (width : ℝ)
    (mode : RenderMode) (dash_length gap_length : ℝ)
    (out : List Vec3 × List Tri)
    (heq : render_line fuel start endp width mode dash_length gap_length
      = some out) :
    ∀ t ∈ out.2, tri_valid out.1.length t := by
  rw [render_line] at heq
  by_cases h : (endp.sub start).length < RenderingConfig.MIN_SEGMENT_LENGTH
  · simp only [if_pos h, Option.some.injEq] at heq
    subst heq
    intro t ht
    simp at ht
  · rw [if_neg h] at heq
    by_cases hm : mode = RenderMode.solid
    · simp only [if_pos hm, Option.some.injEq] at heq
      subst heq
      intro t ht
      simp only [render_solid_line, create_quad_geometry, List.mem_cons,
        List.not_mem_nil, or_false] at ht
      rcases ht with rfl | rfl <;>
        simp [tri_valid, render_solid_line, create_quad_geometry]
    · rw [if_neg hm] at heq
      exact render_dashed_line_valid _ _ _ _ _ _ _ heq

/-- Invariant: the strip loop preserves index validity of the
accumulated output. -/
lemma strip_loop_valid (fuel : ℕ) (width : ℝ) (mode : RenderMode)
    (dash_length gap_length : ℝ) :
    ∀ (rest : List Vec3) (prev : Vec3) (all_coords : List Vec3)
      (all_indices : List Tri) (out : List Vec3 × List Tri),
      (∀ t ∈ all_indices, tri_valid all_coords.length t) →
      strip_loop fuel width mode dash_length gap_length prev rest
        all_coords all_indices = some out →
      ∀ t ∈ out.2, tri_valid out.1.length t := by
  intro rest
  induction rest with
  | nil =>
    intro prev all_coords all_indices out hinv heq
    rw [strip_loop] at heq
    cases heq
    exact hinv
  | cons q rest ih =>
    intro prev all_coords all_indices out hinv heq
    rw [strip_loop] at heq
    cases hseg : render_line fuel prev q width mode dash_length gap_length with
    | none => rw [hseg] at heq; cases heq
    | some seg =>
      obtain ⟨segment_coords, segment_indices⟩ := seg
      rw [hseg] at heq
      simp only at heq
      by_cases hempty : segment_coords.isEmpty
      · rw [if_pos hempty] at heq
        exact ih _ _ _ _ hinv heq
      · rw [if_neg hempty] at heq
        refine ih _ _ _ _ ?_ heq
        intro t ht
        rw [List.mem_append] at ht
        rcases ht with ht | ht
        · exact tri_valid_mono (by simp) (hinv t ht)
        · rw [List.mem_map] at ht
          obtain ⟨t0, ht0, rfl⟩ := ht
          have hv := render_line_valid _ _ _ _ _ _ _ _ hseg t0 ht0
          simp only [tri_valid] at hv
          refine ⟨?_, ?_, ?_⟩ <;> simp [shift_tri] <;> omega

/-- Index validity for `render_line_strip` outputs. -/
lemma render_line_strip_valid (fuel : ℕ) (coords : List Vec3) (width : ℝ)
    (mode : RenderMode) (dash_length gap_length : ℝ)
    (out : List Vec3 × List Tri)
    (heq : render_line_strip fuel coords width mode dash_length gap_length
      = some out) :
    ∀ t ∈ out.2, tri_valid out.1.length t := by
  rw [render_line_strip.eq_def] at heq
  by_cases h : coords.length < 2
  · simp only [if_pos h, Option.some.injEq] at heq
    subst heq
    intro t ht
    simp at ht
  · rw [if_neg h] at heq
    cases coords with
    | nil => simp at h
    | cons p rest =>
      simp only at heq
      refine strip_loop_valid _ _ _ _ _ _ _ _ _ _ ?_ heq
      intro t ht
      simp at ht

end ThickRenderer

/-! ## Concrete evaluation helpers for witnesses -/

lemma length_unit_x : (Vec3.mk 1 0 0).length = 1 := by
  rw [Vec3.length, show ((1 : ℝ) ^ 2 + 0 ^ 2 + 0 ^ 2) = 1 by norm_num,
    Real.sqrt_one]

lemma length_sub_unit_x : ((Vec3.mk 1 0 0).sub ⟨0, 0, 0⟩).length = 1 := by
  rw [Vec3.length, Vec3.sub]
  norm_num [Real.sqrt_one]

lemma length_sub_self_zero : ((Vec3.mk 0 0 0).sub ⟨0, 0, 0⟩).length = 0 := by
  rw [Vec3.length, Vec3.sub]
  norm_num

/-! ## Claim theorems -/

/-- C4: `ThickRenderer.render_point` returns the 4 corners of the
axis-aligned square lying in the plane `z = center.z`, centered at
`center`, with half-side `size * RenderingConfig.THICK_POINT_SCALE`,
together with exactly the triangle index triples `(0, 1, 2)` and
`(0, 2, 3)`. -/
theorem render_point_square (center : Vec3) (size : ℝ) :
    ThickRenderer.render_point center size =
      ([center.add ⟨-(size * RenderingConfig.THICK_POINT_SCALE),
                    -(size * RenderingConfig.THICK_POINT_SCALE), 0⟩,
        center.add ⟨size * RenderingConfig.THICK_POINT_SCALE,
                    -(size * RenderingConfig.THICK_POINT_SCALE), 0⟩,
        center.add ⟨size * RenderingConfig.THICK_POINT_SCALE,
                    size * RenderingConfig.THICK_POINT_SCALE, 0⟩,
        center.add ⟨-(size * RenderingConfig.THICK_POINT_SCALE),
                    size * RenderingConfig.THICK_POINT_SCALE, 0⟩],
       [(0, 1, 2), (0, 2, 3)]) := by
  simp only [ThickRenderer.render_point, Vec3.add, Prod.mk.injEq,
    List.cons.injEq, Vec3.mk.injEq, and_true]
  norm_num
  exact ⟨⟨by ring, by ring⟩, by ring, by ring⟩

/-- C5: `SlvsGenericEntity.color` selects the theme color by exactly
the decision order the claim states (the claim's cases read as an
ordered decision list, formalised by `color_claim_order`). -/
theorem color_decision_order :
    ∀ active highlight selected fixed origin : Bool,
      SlvsGenericEntity.color active highlight selected fixed origin =
        color_claim_order active highlight selected fixed origin := by
  decide

/-- C6: `SlvsGenericEntity.is_visible` returns the scene's
`show_origin` flag for every origin entity regardless of the entity's
own `visible` flag (and of its sketch); for a non-origin entity with a
`sketch` attribute it returns the conjunction of the sketch's
visibility and the entity's `visible` flag; for any other non-origin
entity it returns the `visible` flag. -/
theorem is_visible_rules :
    (∀ (visible : Bool) (sketch : Option Bool) (show_origin : Bool),
       SlvsGenericEntity.is_visible ⟨true, visible, sketch⟩ show_origin
         = show_origin) ∧
    (∀ (visible sketch_visible show_origin : Bool),
       SlvsGenericEntity.is_visible ⟨false, visible, some sketch_visible⟩
         show_origin = (sketch_visible && visible)) ∧
    (∀ (visible show_origin : Bool),
       SlvsGenericEntity.is_visible ⟨false, visible, none⟩ show_origin
         = visible) := by
  refine ⟨?_, ?_, ?_⟩ <;> intros <;> rfl

/-- C7: the base-class `create_slvs_data` raises `NotImplementedError`
for every input, the base-class `update_from_slvs` returns without
changing any state, and `SlvsWorkplane.create_slvs_data` (with `group`
defaulting to `Solver.group_fixed`) stores the handle returned by
`solvesys.addWorkplane(p1.py_data, nm.py_data, group)` into the global
entities table at the workplane's `slvs_index`, leaving every other
index unchanged. -/
theorem slvs_data_behavior :
    (∀ (solvesys : SolveSys) (entities : EntitiesTable),
       SlvsGenericEntity.create_slvs_data solvesys entities =
         Except.error SlvsError.notImplementedError) ∧
    (∀ (solvesys : SolveSys) (entities : EntitiesTable),
       SlvsGenericEntity.update_from_slvs solvesys entities = entities) ∧
    (∀ (w : SlvsWorkplane) (solvesys : SolveSys) (entities : EntitiesTable),
       w.create_slvs_data solvesys entities = fun i =>
         if i = w.slvs_index then
           solvesys.addWorkplane (entities w.p1_index) (entities w.nm_index)
             Solver.group_fixed
         else entities i) :=
  ⟨fun _ _ => rfl, fun _ _ => rfl, fun _ _ _ => rfl⟩

/-- C8: for every start and end point closer than `1e-6`,
`render_line` returns the pair of empty lists in every mode; and for
every input list with fewer than 2 points, `render_line_strip` returns
the input coordinates unchanged together with an empty index list. -/
theorem degenerate_inputs (fuel : ℕ) (start endp : Vec3) (width : ℝ)
    (mode : RenderMode) (dash_length gap_length : ℝ) (coords : List Vec3) :
    ((endp.sub start).length < RenderingConfig.MIN_SEGMENT_LENGTH →
      ThickRenderer.render_line fuel start endp width mode dash_length
        gap_length = some ([], [])) ∧
    (coords.length < 2 →
      ThickRenderer.render_line_strip fuel coords width mode dash_length
        gap_length = some (coords, [])) := by
  constructor
  · intro h
    simp [ThickRenderer.render_line, h]
  · intro h
    rw [ThickRenderer.render_line_strip.eq_def, if_pos h]

/-- Witness for C8 at the zero-length segment `(0,0,0) → (0,0,0)` and
the single-point strip `[(1,2,3)]`. -/
theorem degenerate_inputs_witness :
    ThickRenderer.render_line 1 ⟨0, 0, 0⟩ ⟨0, 0, 0⟩ 1 RenderMode.solid
      (1 / 10) (1 / 20) = some ([], []) ∧
    ThickRenderer.render_line_strip 1 [⟨1, 2, 3⟩] 1 RenderMode.solid
      (1 / 10) (1 / 20) = some ([⟨1, 2, 3⟩], []) :=
  ⟨(degenerate_inputs 1 ⟨0, 0, 0⟩ ⟨0, 0, 0⟩ 1 RenderMode.solid (1 / 10)
      (1 / 20) []).1
    (by rw [length_sub_self_zero]; norm_num [RenderingConfig.MIN_SEGMENT_LENGTH]),
   (degenerate_inputs 1 ⟨0, 0, 0⟩ ⟨0, 0, 0⟩ 1 RenderMode.solid (1 / 10)
      (1 / 20) [⟨1, 2, 3⟩]).2 (by norm_num)⟩

/-- C3: for every start and end point at distance at least `1e-6`,
`render_line` in SOLID mode returns exactly the 4 coordinates
`start - offset`, `start + offset`, `end + offset`, `end - offset`
(with `offset` the perpendicular offset of the normalized direction
scaled by `width`) and exactly the triangle triples `(0, 1, 2)` and
`(0, 2, 3)`. -/
theorem render_line_solid (fuel : ℕ) (start endp : Vec3)
    (width dash_length gap_length : ℝ)
    (h : RenderingConfig.MIN_SEGMENT_LENGTH ≤ (endp.sub start).length) :
    ThickRenderer.render_line fuel start endp width RenderMode.solid
        dash_length gap_length =
      some
        ([start.sub (ThickRenderer.calculate_perpendicular_offset
            ((endp.sub start).normalized) width),
          start.add (ThickRenderer.calculate_perpendicular_offset
            ((endp.sub start).normalized) width),
          endp.add (ThickRenderer.calculate_perpendicular_offset
            ((endp.sub start).normalized) width),
          endp.sub (ThickRenderer.calculate_perpendicular_offset
            ((endp.sub start).normalized) width)],
         [(0, 1, 2), (0, 2, 3)]) := by
  simp [ThickRenderer.render_line, ThickRenderer.render_solid_line,
    ThickRenderer.create_quad_geometry, not_lt.mpr h]

/-- Witness for C3 at the unit segment `(0,0,0) → (1,0,0)`. -/
theorem render_line_solid_witness :
    ThickRenderer.render_line 1 ⟨0, 0, 0⟩ ⟨1, 0, 0⟩ 1 RenderMode.solid
        (1 / 10) (1 / 20) =
      some
        ([(Vec3.mk 0 0 0).sub (ThickRenderer.calculate_perpendicular_offset
            (((Vec3.mk 1 0 0).sub ⟨0, 0, 0⟩).normalized) 1),
          (Vec3.mk 0 0 0).add (ThickRenderer.calculate_perpendicular_offset
            (((Vec3.mk 1 0 0).sub ⟨0, 0, 0⟩).normalized) 1),
          (Vec3.mk 1 0 0).add (ThickRenderer.calculate_perpendicular_offset
            (((Vec3.mk 1 0 0).sub ⟨0, 0, 0⟩).normalized) 1),
          (Vec3.mk 1 0 0).sub (ThickRenderer.calculate_perpendicular_offset
            (((Vec3.mk 1 0 0).sub ⟨0, 0, 0⟩).normalized) 1)],
         [(0, 1, 2), (0, 2, 3)]) :=
  render_line_solid 1 ⟨0, 0, 0⟩ ⟨1, 0, 0⟩ 1 (1 / 10) (1 / 20)
    (by rw [length_sub_unit_x]; norm_num [RenderingConfig.MIN_SEGMENT_LENGTH])

/-- C1 (amended): `_calculate_perpendicular_offset` always returns a
vector perpendicular to `direction`; for a direction of length below
`1e-6` it returns the zero vector; and for a direction of length at
least `1e-6` whose branch cross product is nonzero — that is, unless
`direction.x = direction.y = 0` with `|direction.z| < 0.9` — the result
has magnitude `|width * scale_factor|`. -/
theorem perpendicular_offset_props (direction : Vec3) (width scale_factor : ℝ) :
    (ThickRenderer.calculate_perpendicular_offset direction width
      scale_factor).dot direction = 0 ∧
    (direction.length < RenderingConfig.MIN_SEGMENT_LENGTH →
      ThickRenderer.calculate_perpendicular_offset direction width scale_factor
        = Vec3.zero) ∧
    (RenderingConfig.MIN_SEGMENT_LENGTH ≤ direction.length →
      (direction.x ≠ 0 ∨ direction.y ≠ 0 ∨ 9 / 10 ≤ |direction.z|) →
      (ThickRenderer.calculate_perpendicular_offset direction width
        scale_factor).length = |width * scale_factor|) := by
  refine ⟨?_, ?_, ?_⟩
  · rw [ThickRenderer.calculate_perpendicular_offset]
    split
    · exact Vec3.zero_dot direction
    · split <;>
        rw [Vec3.dot_smul_left,
          Vec3.dot_normalized_left _ _ (Vec3.dot_cross_left direction _),
          mul_zero]
  · intro h
    rw [ThickRenderer.calculate_perpendicular_offset, if_pos h]
  · intro h hnz
    rw [ThickRenderer.calculate_perpendicular_offset, if_neg (not_lt.mpr h)]
    by_cases hz : |direction.z| < 9 / 10
    · rw [if_pos hz]
      have hcross : direction.cross ⟨0, 0, 1⟩ ≠ Vec3.zero := by
        intro hc
        simp only [Vec3.cross, Vec3.zero, Vec3.mk.injEq, mul_one, mul_zero,
          sub_zero, zero_sub, neg_eq_zero] at hc
        rcases hnz with hx | hy | hz9
        · exact hx hc.2.1
        · exact hy hc.1
        · exact absurd hz9 (not_le.mpr hz)
      rw [Vec3.length_smul, Vec3.length_normalized _ hcross, mul_one]
    · rw [if_neg hz]
      have hznz : direction.z ≠ 0 := by
        intro h0
        apply hz
        rw [h0]
        norm_num
      have hcross : direction.cross ⟨1, 0, 0⟩ ≠ Vec3.zero := by
        intro hc
        simp only [Vec3.cross, Vec3.zero, Vec3.mk.injEq, mul_one, mul_zero,
          sub_zero, zero_sub, neg_eq_zero] at hc
        exact hznz hc.2.1
      rw [Vec3.length_smul, Vec3.length_normalized _ hcross, mul_one]

/-- Counterexample to C1 as stated: the direction `(0, 0, 1/2)` has
length `1/2 ≥ 1e-6`, but with `width = scale_factor = 1` the returned
offset is the zero vector, whose magnitude `0` is not
`width * scale_factor = 1`: the `|z| < 0.9` branch crosses with the
z-axis, which is degenerate for a direction on the z-axis. -/
theorem perpendicular_offset_counterexample :
    RenderingConfig.MIN_SEGMENT_LENGTH ≤ (Vec3.mk 0 0 (1 / 2)).length ∧
    ThickRenderer.calculate_perpendicular_offset ⟨0, 0, 1 / 2⟩ 1 1
      = Vec3.zero ∧
    (ThickRenderer.calculate_perpendicular_offset ⟨0, 0, 1 / 2⟩ 1 1).length
      < 1 * 1 := by
  have hlen : (Vec3.mk 0 0 (1 / 2)).length = 1 / 2 := by
    rw [Vec3.length,
      show ((0 : ℝ) ^ 2 + 0 ^ 2 + (1 / 2) ^ 2) = (1 / 2) ^ 2 by norm_num,
      Real.sqrt_sq (by norm_num : (0 : ℝ) ≤ 1 / 2)]
  have hoff : ThickRenderer.calculate_perpendicular_offset ⟨0, 0, 1 / 2⟩ 1 1
      = Vec3.zero := by
    rw [ThickRenderer.calculate_perpendicular_offset,
      if_neg (by rw [hlen]; norm_num [RenderingConfig.MIN_SEGMENT_LENGTH]),
      if_pos (by norm_num [abs_lt])]
    have hc : (Vec3.mk 0 0 (1 / 2)).cross ⟨0, 0, 1⟩ = Vec3.zero := by
      rw [Vec3.cross, Vec3.zero]
      norm_num
    rw [hc, Vec3.normalized, if_pos Vec3.length_zero, Vec3.zero, Vec3.smul]
    norm_num
  refine ⟨by rw [hlen]; norm_num [RenderingConfig.MIN_SEGMENT_LENGTH],
    hoff, ?_⟩
  rw [hoff, Vec3.length_zero]
  norm_num

/-- Witness for the amended C1 at direction `(1, 0, 0)`, width `2`,
scale factor `3`. -/
theorem perpendicular_offset_props_witness :
    RenderingConfig.MIN_SEGMENT_LENGTH ≤ (Vec3.mk 1 0 0).length ∧
    (ThickRenderer.calculate_perpendicular_offset ⟨1, 0, 0⟩ 2 3).dot ⟨1, 0, 0⟩
      = 0 ∧
    (ThickRenderer.calculate_perpendicular_offset ⟨1, 0, 0⟩ 2 3).length
      = |2 * 3| := by
  have hlen : RenderingConfig.MIN_SEGMENT_LENGTH ≤ (Vec3.mk 1 0 0).length := by
    rw [length_unit_x]
    norm_num [RenderingConfig.MIN_SEGMENT_LENGTH]
  have h := perpendicular_offset_props ⟨1, 0, 0⟩ 2 3
  exact ⟨hlen, h.1, h.2.2 hlen (Or.inl (by norm_num))⟩

/-- C9: every triangle triple in the indices of any output of
`render_line`, `_render_dashed_line` or `render_line_strip` refers only
to valid positions of the accompanying coordinate list. -/
theorem triangle_indices_valid :
    (∀ (fuel : ℕ) (start endp : Vec3) (width : ℝ) (mode : RenderMode)
       (dash_length gap_length : ℝ) (coords : List Vec3) (indices : List Tri),
       ThickRenderer.render_line fuel start endp width mode dash_length
         gap_length = some (coords, indices) →
       ∀ t ∈ indices, tri_valid coords.length t) ∧
    (∀ (fuel : ℕ) (start endp : Vec3) (width dash_length gap_length : ℝ)
       (coords : List Vec3) (indices : List Tri),
       ThickRenderer.render_dashed_line fuel start endp width dash_length
         gap_length = some (coords, indices) →
       ∀ t ∈ indices, tri_valid coords.length t) ∧
    (∀ (fuel : ℕ) (points : List Vec3) (width : ℝ) (mode : RenderMode)
       (dash_length gap_length : ℝ) (coords : List Vec3) (indices : List Tri),
       ThickRenderer.render_line_strip fuel points width mode dash_length
         gap_length = some (coords, indices) →
       ∀ t ∈ indices, tri_valid coords.length t) := by
  refine ⟨?_, ?_, ?_⟩
  · intro fuel s e w m dl gl cs is heq
    exact ThickRenderer.render_line_valid fuel s e w m dl gl (cs, is) heq
  · intro fuel s e w dl gl cs is heq
    exact ThickRenderer.render_dashed_line_valid fuel s e w dl gl (cs, is) heq
  · intro fuel ps w m dl gl cs is heq
    exact ThickRenderer.render_line_strip_valid fuel ps w m dl gl (cs, is) heq

/-- Witness for C9 on the solid unit segment `(0,0,0) → (1,0,0)`, whose
output quad has 4 vertices and triangles `(0,1,2)`, `(0,2,3)`. -/
theorem triangle_indices_valid_witness :
    tri_valid 4 (0, 1, 2) ∧ tri_valid 4 (0, 2, 3) := by
  have heq : ThickRenderer.render_line 1 ⟨0, 0, 0⟩ ⟨1, 0, 0⟩ 1 RenderMode.solid
      (1 / 10) (1 / 20) =
      some
        ([(Vec3.mk 0 0 0).sub (ThickRenderer.calculate_perpendicular_offset
            (((Vec3.mk 1 0 0).sub ⟨0, 0, 0⟩).normalized) 1),
          (Vec3.mk 0 0 0).add (ThickRenderer.calculate_perpendicular_offset
            (((Vec3.mk 1 0 0).sub ⟨0, 0, 0⟩).normalized) 1),
          (Vec3.mk 1 0 0).add (ThickRenderer.calculate_perpendicular_offset
            (((Vec3.mk 1 0 0).sub ⟨0, 0, 0⟩).normalized) 1),
          (Vec3.mk 1 0 0).sub (ThickRenderer.calculate_perpendicular_offset
            (((Vec3.mk 1 0 0).sub ⟨0, 0, 0⟩).normalized) 1)],
         [(0, 1, 2), (0, 2, 3)]) := by
    have hmin : ¬ (((Vec3.mk 1 0 0).sub ⟨0, 0, 0⟩).length
        < RenderingConfig.MIN_SEGMENT_LENGTH) := by
      rw [length_sub_unit_x]
      norm_num [RenderingConfig.MIN_SEGMENT_LENGTH]
    simp [ThickRenderer.render_line, ThickRenderer.render_solid_line,
      ThickRenderer.create_quad_geometry, hmin]
  have hv := triangle_indices_valid.1 1 ⟨0, 0, 0⟩ ⟨1, 0, 0⟩ 1 RenderMode.solid
    (1 / 10) (1 / 20) _ _ heq
  constructor
  · have h012 := hv (0, 1, 2) (by norm_num)
    simpa using h012
  · have h023 := hv (0, 2, 3) (by norm_num)
    simpa using h023

/-- C2 (amended: `dash_length` strictly positive rather than merely
non-negative): for every start and end point at distance at least
`1e-6`, every positive `dash_length` and non-negative `gap_length`,
`render_line` in DASHED mode (given enough fuel for the loop) emits one
quad per dash: the k-th dash starts at parameter
`k * (dash_length + gap_length)`, ends at
`min (k * (dash_length + gap_length) + dash_length, total)`, dashes are
emitted exactly while the dash start is strictly below the total length,
each contributes 4 coordinates and 2 triangles, and the k-th dash's
triangle indices are shifted by `4 * k`. -/
theorem render_line_dashed_segmentation (fuel : ℕ) (start endp : Vec3)
    (width dash_length gap_length : ℝ)
    (hlen : RenderingConfig.MIN_SEGMENT_LENGTH ≤ (endp.sub start).length)
    (hd : 0 < dash_length) (hg : 0 ≤ gap_length)
    (hfuel : n_dashes (endp.sub start).length (dash_length + gap_length)
      ≤ fuel) :
    ThickRenderer.render_line fuel start endp width RenderMode.dashed
        dash_length gap_length
      = some (claimed_dash_coords start endp width dash_length gap_length,
          claimed_dash_tris
            (n_dashes (endp.sub start).length (dash_length + gap_length)))
    ∧ ∀ k : ℕ,
        k < n_dashes (endp.sub start).length (dash_length + gap_length) ↔
        (k : ℝ) * (dash_length + gap_length) < (endp.sub start).length := by
  have hpat : (0 : ℝ) < dash_length + gap_length := by linarith
  constructor
  · have hnot : ¬ ((endp.sub start).length
        < RenderingConfig.MIN_SEGMENT_LENGTH) := not_lt.mpr hlen
    rw [ThickRenderer.render_line]
    simp only [if_neg hnot]
    rw [if_neg (by decide : ¬ (RenderMode.dashed = RenderMode.solid))]
    rw [ThickRenderer.render_dashed_line]
    rw [show (0 : ℝ) = ((0 : ℕ) : ℝ) * (dash_length + gap_length) by norm_num]
    rw [ThickRenderer.dashed_loop_spec start ((endp.sub start).normalized)
      (ThickRenderer.calculate_perpendicular_offset
        ((endp.sub start).normalized) width)
      dash_length (dash_length + gap_length) ((endp.sub start).length)
      hd (by linarith) fuel 0 [] [] (by omega) (by simp)]
    simp only [claimed_dash_coords, claimed_dash_tris, Nat.sub_zero,
      List.nil_append, List.range_eq_range']
  · intro k
    exact ThickRenderer.n_dashes_lt_iff _ _ hpat k

/-- Witness for the amended C2 on the unit segment with
`dash_length = 2`, `gap_length = 0`: a single dash covers the line. -/
theorem render_line_dashed_segmentation_witness :
    ThickRenderer.render_line 1 ⟨0, 0, 0⟩ ⟨1, 0, 0⟩ 1 RenderMode.dashed 2 0
      = some (claimed_dash_coords ⟨0, 0, 0⟩ ⟨1, 0, 0⟩ 1 2 0,
          claimed_dash_tris
            (n_dashes ((Vec3.mk 1 0 0).sub ⟨0, 0, 0⟩).length (2 + 0))) :=
  (render_line_dashed_segmentation 1 ⟨0, 0, 0⟩ ⟨1, 0, 0⟩ 1 2 0
    (by rw [length_sub_unit_x]; norm_num [RenderingConfig.MIN_SEGMENT_LENGTH])
    (by norm_num) (by norm_num)
    (by
      rw [length_sub_unit_x, n_dashes]
      exact Nat.ceil_le.mpr (by norm_num))).1

/-- Counterexample to C2 as stated: with `dash_length = 0` (allowed by
the claim's "non-negative dash_length") and `gap_length = 1` on the
unit segment, the claim predicts a first dash starting at parameter
`0 < 1` and hence 4 emitted coordinates, but the code's
`dash_end > current_pos` guard fails on every iteration and the result
is the pair of empty lists. -/
theorem render_line_dashed_counterexample :
    ThickRenderer.render_line 2 ⟨0, 0, 0⟩ ⟨1, 0, 0⟩ 1 RenderMode.dashed 0 1
      = some ([], []) ∧
    RenderingConfig.MIN_SEGMENT_LENGTH
      ≤ ((Vec3.mk 1 0 0).sub ⟨0, 0, 0⟩).length ∧
    (0 : ℝ) * (0 + 1) < ((Vec3.mk 1 0 0).sub ⟨0, 0, 0⟩).length := by
  refine ⟨?_,
    by rw [length_sub_unit_x]; norm_num [RenderingConfig.MIN_SEGMENT_LENGTH],
    by rw [length_sub_unit_x]; norm_num⟩
  have hnot : ¬ (((Vec3.mk 1 0 0).sub ⟨0, 0, 0⟩).length
      < RenderingConfig.MIN_SEGMENT_LENGTH) := by
    rw [length_sub_unit_x]
    norm_num [RenderingConfig.MIN_SEGMENT_LENGTH]
  rw [ThickRenderer.render_line]
  simp only [if_neg hnot]
  rw [if_neg (by decide : ¬ (RenderMode.dashed = RenderMode.solid))]
  rw [ThickRenderer.render_dashed_line]
  simp only [length_sub_unit_x]
  rw [show (2 : ℕ) = 0 + 1 + 1 from rfl, ThickRenderer.dashed_loop]
  rw [if_pos (by norm_num : (0 : ℝ) < 1)]
  rw [if_neg (by norm_num : ¬ (min ((0 : ℝ) + 0) 1 > 0))]
  rw [show (0 : ℝ) + (0 + 1) = 1 by norm_num, ThickRenderer.dashed_loop]
  rw [if_neg (by norm_num : ¬ ((1 : ℝ) < 1))]

lemma Vec3.add_sub_cancel_vec (a b : Vec3) : a.add (b.sub a) = b := by
  cases a
  cases b
  simp [Vec3.add, Vec3.sub]

/-- C10 (amended: `gap_length` non-negative): for every start and end
point whose distance `d` satisfies `1e-6 ≤ d ≤ dash_length` and every
non-negative `gap_length`, `render_line` in DASHED mode returns exactly
the same coordinates and indices as in SOLID mode with the same start,
end and width: the single dash covers the whole line. -/
theorem dashed_short_line_is_solid (fuel : ℕ) (start endp : Vec3)
    (width dash_length gap_length : ℝ)
    (h1 : RenderingConfig.MIN_SEGMENT_LENGTH ≤ (endp.sub start).length)
    (h2 : (endp.sub start).length ≤ dash_length)
    (hg : 0 ≤ gap_length) (hf : 1 ≤ fuel) :
    ThickRenderer.render_line fuel start endp width RenderMode.dashed
        dash_length gap_length
      = ThickRenderer.render_line fuel start endp width RenderMode.solid
          dash_length gap_length := by
  obtain ⟨f, rfl⟩ : ∃ f, fuel = f + 1 := ⟨fuel - 1, by omega⟩
  have htot : (0 : ℝ) < (endp.sub start).length :=
    lt_of_lt_of_le (by norm_num [RenderingConfig.MIN_SEGMENT_LENGTH]) h1
  have hne : endp.sub start ≠ Vec3.zero := by
    intro hz
    rw [hz, Vec3.length_zero] at htot
    exact lt_irrefl _ htot
  have hnot : ¬ ((endp.sub start).length
      < RenderingConfig.MIN_SEGMENT_LENGTH) := not_lt.mpr h1
  rw [ThickRenderer.render_line, ThickRenderer.render_line]
  simp only [if_neg hnot]
  rw [if_neg (by decide : ¬ (RenderMode.dashed = RenderMode.solid)), if_true]
  rw [ThickRenderer.render_dashed_line, ThickRenderer.dashed_loop]
  rw [if_pos htot]
  have hmin : min ((0 : ℝ) + dash_length) ((endp.sub start).length)
      = (endp.sub start).length := by
    rw [zero_add]
    exact min_eq_right h2
  rw [hmin]
  rw [if_pos htot]
  rw [Vec3.add_smul_zero, Vec3.normalized_smul_length _ hne,
    Vec3.add_sub_cancel_vec]
  have hexit : ¬ ((0 : ℝ) + (dash_length + gap_length)
      < (endp.sub start).length) := by
    push_neg
    linarith
  rw [ThickRenderer.dashed_loop_exit _ _ _ _ _ _ _ hexit]
  rw [ThickRenderer.render_solid_line]
  simp [ThickRenderer.create_quad_geometry, ThickRenderer.shift_tri]

/-- Witness for the amended C10 on the unit segment with
`dash_length = 1`, `gap_length = 0`, fuel `1`. -/
theorem dashed_short_line_is_solid_witness :
    ThickRenderer.render_line 1 ⟨0, 0, 0⟩ ⟨1, 0, 0⟩ 1 RenderMode.dashed 1 0
      = ThickRenderer.render_line 1 ⟨0, 0, 0⟩ ⟨1, 0, 0⟩ 1 RenderMode.solid
          1 0 :=
  dashed_short_line_is_solid 1 ⟨0, 0, 0⟩ ⟨1, 0, 0⟩ 1 1 0
    (by rw [length_sub_unit_x]; norm_num [RenderingConfig.MIN_SEGMENT_LENGTH])
    (by rw [length_sub_unit_x]) (by norm_num) (by norm_num)

/-- Counterexample to C10 as stated: the claim does not restrict
`gap_length`. With `gap_length = -(1/2)` on the unit segment with
`dash_length = 1` (so `d = 1 ≤ dash_length`), DASHED mode emits two
overlapping dashes (8 coordinates) while SOLID mode emits one quad
(4 coordinates), so the two outputs differ. -/
theorem dashed_short_line_counterexample :
    (ThickRenderer.render_line 2 ⟨0, 0, 0⟩ ⟨1, 0, 0⟩ 1 RenderMode.dashed 1
        (-(1 / 2))).map (fun r => r.1.length) = some 8 ∧
    (ThickRenderer.render_line 2 ⟨0, 0, 0⟩ ⟨1, 0, 0⟩ 1 RenderMode.solid 1
        (-(1 / 2))).map (fun r => r.1.length) = some 4 ∧
    RenderingConfig.MIN_SEGMENT_LENGTH
      ≤ ((Vec3.mk 1 0 0).sub ⟨0, 0, 0⟩).length ∧
    ((Vec3.mk 1 0 0).sub ⟨0, 0, 0⟩).length ≤ 1 := by
  have hnot : ¬ (((Vec3.mk 1 0 0).sub ⟨0, 0, 0⟩).length
      < RenderingConfig.MIN_SEGMENT_LENGTH) := by
    rw [length_sub_unit_x]
    norm_num [RenderingConfig.MIN_SEGMENT_LENGTH]
  refine ⟨?_, ?_,
    by rw [length_sub_unit_x]; norm_num [RenderingConfig.MIN_SEGMENT_LENGTH],
    by rw [length_sub_unit_x]⟩
  · rw [ThickRenderer.render_line]
    simp only [if_neg hnot]
    rw [if_neg (by decide : ¬ (RenderMode.dashed = RenderMode.solid))]
    rw [ThickRenderer.render_dashed_line]
    simp only [length_sub_unit_x]
    rw [show (2 : ℕ) = 0 + 1 + 1 from rfl, ThickRenderer.dashed_loop]
    rw [if_pos (by norm_num : (0 : ℝ) < 1)]
    rw [if_pos (by norm_num : min ((0 : ℝ) + 1) 1 > 0)]
    rw [show (0 : ℝ) + (1 + -(1 / 2)) = 1 / 2 by norm_num,
      ThickRenderer.dashed_loop]
    rw [if_pos (by norm_num : (1 : ℝ) / 2 < 1)]
    rw [if_pos (by norm_num : min ((1 : ℝ) / 2 + 1) 1 > 1 / 2)]
    rw [show (1 : ℝ) / 2 + (1 + -(1 / 2)) = 1 by norm_num,
      ThickRenderer.dashed_loop]
    rw [if_neg (by norm_num : ¬ ((1 : ℝ) < 1))]
    simp [ThickRenderer.create_quad_geometry]
  · rw [ThickRenderer.render_line]
    simp only [if_neg hnot]
    rw [if_true]
    simp [ThickRenderer.render_solid_line, ThickRenderer.create_quad_geometry]
